import Mathlib

/-!
Shallow embedding of `gpsd.go` from stratoberry/go-gpsd.

The wire layer is abstracted at the JSON-syntax boundary: a line read from
the socket is modelled as `Option JValue` — `none` is a line whose bytes are
not syntactically valid JSON, `some v` is the parsed JSON value.  Numbers are
modelled as exact rationals, `time.Time` fields as their RFC3339 string
(zero value `""`; format validation of the string is abstracted away).
`encoding/json` field decoding is modelled per Go semantics: an absent key or
a JSON `null` leaves the zero value, a present key of the wrong JSON type is
an unmarshal error, the last occurrence of a duplicated key wins, and unknown
keys are ignored.
-/

namespace GoGpsd

/-- A parsed JSON value (numbers as exact rationals). -/
inductive JValue where
  | null
  | bool (b : Bool)
  | num (q : ℚ)
  | str (s : String)
  | arr (elems : List JValue)
  | obj (fields : List (String × JValue))

/-- One line as read from the stream: `none` when the bytes are not valid
JSON, `some v` when they parse to the JSON value `v`. -/
def JLine := Option JValue

/-- Last-occurrence lookup of a key in a JSON object, per `encoding/json`
(later duplicate keys overwrite earlier ones). -/
def getField (fs : List (String × JValue)) (k : String) : Option JValue :=
  fs.foldl (fun acc p => if p.1 = k then some p.2 else acc) none

/-- Decode a `float64` struct field: absent or `null` leaves the zero value,
a number is taken exactly, anything else is an unmarshal error. -/
def decFloat : Option JValue → Except String ℚ
  | Option.none => .ok 0
  | some .null => .ok 0
  | some (.num q) => .ok q
  | some _ => .error "cannot unmarshal value into float64 field"

/-- Decode a `string` struct field. -/
def decString : Option JValue → Except String String
  | Option.none => .ok ""
  | some .null => .ok ""
  | some (.str s) => .ok s
  | some _ => .error "cannot unmarshal value into string field"

/-- Decode an `int` struct field: the JSON number must be integral. -/
def decInt : Option JValue → Except String ℤ
  | Option.none => .ok 0
  | some .null => .ok 0
  | some (.num q) => if q.den = 1 then .ok q.num
      else .error "cannot unmarshal number into int field"
  | some _ => .error "cannot unmarshal value into int field"

/-- Decode a `bool` struct field. -/
def decBool : Option JValue → Except String Bool
  | Option.none => .ok false
  | some .null => .ok false
  | some (.bool b) => .ok b
  | some _ => .error "cannot unmarshal value into bool field"

/-- Decode a `time.Time` struct field, modelled as its RFC3339 string with
zero value `""` (string-format validation abstracted away). -/
def decTime : Option JValue → Except String String
  | Option.none => .ok ""
  | some .null => .ok ""
  | some (.str s) => .ok s
  | some _ => .error "cannot unmarshal value into time.Time field"

/-- `Mode` from gpsd.go is `type Mode byte`; modelled as a natural number
below 256, with the unmarshal range check Go performs for unsigned bytes. -/
abbrev Mode := ℕ

/-- NoValueSeen indicates no data has been received yet. -/
def NoValueSeen : Mode := 0
/-- NoFix indicates fix has not been required yet. -/
def NoFix : Mode := 1
/-- Mode2D represents quality of the fix. -/
def Mode2D : Mode := 2
/-- Mode3D represents quality of the fix. -/
def Mode3D : Mode := 3

/-- Decode a `Mode` (byte) struct field: integral and within 0..255. -/
def decMode : Option JValue → Except String Mode
  | Option.none => .ok 0
  | some .null => .ok 0
  | some (.num q) =>
      if q.den = 1 ∧ 0 ≤ q.num ∧ q.num < 256 then .ok q.num.toNat
      else .error "cannot unmarshal number into Mode field"
  | some _ => .error "cannot unmarshal value into Mode field"

/-- Satellite describes a location of a GPS satellite (gpsd.go). -/
structure Satellite where
  PRN : ℚ
  Az : ℚ
  El : ℚ
  Ss : ℚ
  Used : Bool

/-- TPVReport is a Time-Position-Velocity report (gpsd.go). -/
structure TPVReport where
  Class : String
  Tag : String
  Device : String
  Mode : Mode
  Time : String
  Ept : ℚ
  Lat : ℚ
  Lon : ℚ
  Alt : ℚ
  Epx : ℚ
  Epy : ℚ
  Epv : ℚ
  Track : ℚ
  Speed : ℚ
  Climb : ℚ
  Epd : ℚ
  Eps : ℚ
  Epc : ℚ

/-- SKYReport reports sky view of GPS satellites (gpsd.go). -/
structure SKYReport where
  Class : String
  Tag : String
  Device : String
  Time : String
  Xdop : ℚ
  Ydop : ℚ
  Vdop : ℚ
  Tdop : ℚ
  Hdop : ℚ
  Pdop : ℚ
  Gdop : ℚ
  Satellites : List Satellite

/-- GSTReport is pseudorange noise report (gpsd.go). -/
structure GSTReport where
  Class : String
  Tag : String
  Device : String
  Time : String
  Rms : ℚ
  Major : ℚ
  Minor : ℚ
  Orient : ℚ
  Lat : ℚ
  Lon : ℚ
  Alt : ℚ

/-- ATTReport reports vehicle-attitude (gpsd.go). -/
structure ATTReport where
  Class : String
  Tag : String
  Device : String
  Time : String
  Heading : ℚ
  MagSt : String
  Pitch : ℚ
  PitchSt : String
  Yaw : ℚ
  YawSt : String
  Roll : ℚ
  RollSt : String
  Dip : ℚ
  MagLen : ℚ
  MagX : ℚ
  MagY : ℚ
  MagZ : ℚ
  AccLen : ℚ
  AccX : ℚ
  AccY : ℚ
  AccZ : ℚ
  GyroX : ℚ
  GyroY : ℚ
  Depth : ℚ
  Temperature : ℚ

/-- VERSIONReport returns version details of gpsd client (gpsd.go). -/
structure VERSIONReport where
  Class : String
  Release : String
  Rev : String
  ProtoMajor : ℤ
  ProtoMinor : ℤ
  Remote : String

/-- DEVICEReport reports a state of a particular device (gpsd.go). -/
structure DEVICEReport where
  Class : String
  Path : String
  Activated : String
  Flags : ℤ
  Driver : String
  Subtype : String
  Bps : ℤ
  Parity : String
  Stopbits : String
  Native : ℤ
  Cycle : ℚ
  Mincycle : ℚ

/-- DEVICESReport lists all devices connected to the system (gpsd.go). -/
structure DEVICESReport where
  Class : String
  Devices : List DEVICEReport
  Remote : String

/-- PPSReport is triggered on each pulse-per-second strobe (gpsd.go). -/
structure PPSReport where
  Class : String
  Device : String
  RealSec : ℚ
  RealMusec : ℚ
  ClockSec : ℚ
  ClockMusec : ℚ

/-- TOFFReport is triggered on each PPS strobe from a device (gpsd.go). -/
structure TOFFReport where
  Class : String
  Device : String
  RealSec : ℚ
  RealNSec : ℚ
  ClockSec : ℚ
  ClockNSec : ℚ

/-- ERRORReport is an error response (gpsd.go). -/
structure ERRORReport where
  Class : String
  Message : String

/-- Field-wise decode of a `Satellite` JSON object. -/
def decodeSatellite (fs : List (String × JValue)) : Except String Satellite := do
  let prn ← decFloat (getField fs "PRN")
  let az ← decFloat (getField fs "az")
  let el ← decFloat (getField fs "el")
  let ss ← decFloat (getField fs "ss")
  let used ← decBool (getField fs "used")
  return { PRN := prn, Az := az, El := el, Ss := ss, Used := used }

/-- One element of a `[]Satellite` slice: `null` leaves the zero value. -/
def decodeSatelliteElem : JValue → Except String Satellite
  | .null => .ok { PRN := 0, Az := 0, El := 0, Ss := 0, Used := false }
  | .obj fs => decodeSatellite fs
  | _ => .error "cannot unmarshal value into Satellite"

/-- Decode a `[]Satellite` struct field (absent or `null` leaves nil slice). -/
def decSatellites : Option JValue → Except String (List Satellite)
  | Option.none => .ok []
  | some .null => .ok []
  | some (.arr xs) => xs.mapM decodeSatelliteElem
  | some _ => .error "cannot unmarshal value into Satellite slice field"

/-- Field-wise decode of a `TPVReport` JSON object. -/
def decodeTPV (fs : List (String × JValue)) : Except String TPVReport := do
  let cls ← decString (getField fs "class")
  let tag ← decString (getField fs "tag")
  let device ← decString (getField fs "device")
  let mode ← decMode (getField fs "mode")
  let time ← decTime (getField fs "time")
  let ept ← decFloat (getField fs "ept")
  let lat ← decFloat (getField fs "lat")
  let lon ← decFloat (getField fs "lon")
  let alt ← decFloat (getField fs "alt")
  let epx ← decFloat (getField fs "epx")
  let epy ← decFloat (getField fs "epy")
  let epv ← decFloat (getField fs "epv")
  let track ← decFloat (getField fs "track")
  let speed ← decFloat (getField fs "speed")
  let climb ← decFloat (getField fs "climb")
  let epd ← decFloat (getField fs "epd")
  let eps ← decFloat (getField fs "eps")
  let epc ← decFloat (getField fs "epc")
  return { Class := cls, Tag := tag, Device := device, Mode := mode, Time := time,
           Ept := ept, Lat := lat, Lon := lon, Alt := alt, Epx := epx, Epy := epy,
           Epv := epv, Track := track, Speed := speed, Climb := climb, Epd := epd,
           Eps := eps, Epc := epc }

/-- Field-wise decode of a `SKYReport` JSON object. -/
def decodeSKY (fs : List (String × JValue)) : Except String SKYReport := do
  let cls ← decString (getField fs "class")
  let tag ← decString (getField fs "tag")
  let device ← decString (getField fs "device")
  let time ← decTime (getField fs "time")
  let xdop ← decFloat (getField fs "xdop")
  let ydop ← decFloat (getField fs "ydop")
  let vdop ← decFloat (getField fs "vdop")
  let tdop ← decFloat (getField fs "tdop")
  let hdop ← decFloat (getField fs "hdop")
  let pdop ← decFloat (getField fs "pdop")
  let gdop ← decFloat (getField fs "gdop")
  let sats ← decSatellites (getField fs "satellites")
  return { Class := cls, Tag := tag, Device := device, Time := time, Xdop := xdop,
           Ydop := ydop, Vdop := vdop, Tdop := tdop, Hdop := hdop, Pdop := pdop,
           Gdop := gdop, Satellites := sats }

/-- Field-wise decode of a `GSTReport` JSON object. -/
def decodeGST (fs : List (String × JValue)) : Except String GSTReport := do
  let cls ← decString (getField fs "class")
  let tag ← decString (getField fs "tag")
  let device ← decString (getField fs "device")
  let time ← decTime (getField fs "time")
  let rms ← decFloat (getField fs "rms")
  let major ← decFloat (getField fs "major")
  let minor ← decFloat (getField fs "minor")
  let orient ← decFloat (getField fs "orient")
  let lat ← decFloat (getField fs "lat")
  let lon ← decFloat (getField fs "lon")
  let alt ← decFloat (getField fs "alt")
  return { Class := cls, Tag := tag, Device := device, Time := time, Rms := rms,
           Major := major, Minor := minor, Orient := orient, Lat := lat,
           Lon := lon, Alt := alt }

/-- Field-wise decode of an `ATTReport` JSON object. -/
def decodeATT (fs : List (String × JValue)) : Except String ATTReport := do
  let cls ← decString (getField fs "class")
  let tag ← decString (getField fs "tag")
  let device ← decString (getField fs "device")
  let time ← decTime (getField fs "time")
  let heading ← decFloat (getField fs "heading")
  let magSt ← decString (getField fs "mag_st")
  let pitch ← decFloat (getField fs "pitch")
  let pitchSt ← decString (getField fs "pitch_st")
  let yaw ← decFloat (getField fs "yaw")
  let yawSt ← decString (getField fs "yaw_st")
  let roll ← decFloat (getField fs "roll")
  let rollSt ← decString (getField fs "roll_st")
  let dip ← decFloat (getField fs "dip")
  let magLen ← decFloat (getField fs "mag_len")
  let magX ← decFloat (getField fs "mag_x")
  let magY ← decFloat (getField fs "mag_y")
  let magZ ← decFloat (getField fs "mag_z")
  let accLen ← decFloat (getField fs "acc_len")
  let accX ← decFloat (getField fs "acc_x")
  let accY ← decFloat (getField fs "acc_y")
  let accZ ← decFloat (getField fs "acc_z")
  let gyroX ← decFloat (getField fs "gyro_x")
  let gyroY ← decFloat (getField fs "gyro_y")
  let depth ← decFloat (getField fs "depth")
  let temperature ← decFloat (getField fs "temperature")
  return { Class := cls, Tag := tag, Device := device, Time := time,
           Heading := heading, MagSt := magSt, Pitch := pitch, PitchSt := pitchSt,
           Yaw := yaw, YawSt := yawSt, Roll := roll, RollSt := rollSt, Dip := dip,
           MagLen := magLen, MagX := magX, MagY := magY, MagZ := magZ,
           AccLen := accLen, AccX := accX, AccY := accY, AccZ := accZ,
           GyroX := gyroX, GyroY := gyroY, Depth := depth,
           Temperature := temperature }

/-- Field-wise decode of a `VERSIONReport` JSON object. -/
def decodeVERSION (fs : List (String × JValue)) : Except String VERSIONReport := do
  let cls ← decString (getField fs "class")
  let release ← decString (getField fs "release")
  let rev ← decString (getField fs "rev")
  let protoMajor ← decInt (getField fs "proto_major")
  let protoMinor ← decInt (getField fs "proto_minor")
  let remote ← decString (getField fs "remote")
  return { Class := cls, Release := release, Rev := rev, ProtoMajor := protoMajor,
           ProtoMinor := protoMinor, Remote := remote }

/-- Field-wise decode of a `DEVICEReport` JSON object. -/
def decodeDEVICE (fs : List (String × JValue)) : Except String DEVICEReport := do
  let cls ← decString (getField fs "class")
  let path ← decString (getField fs "path")
  let activated ← decString (getField fs "activated")
  let flags ← decInt (getField fs "flags")
  let driver ← decString (getField fs "driver")
  let subtype ← decString (getField fs "subtype")
  let bps ← decInt (getField fs "bps")
  let parity ← decString (getField fs "parity")
  let stopbits ← decString (getField fs "stopbits")
  let native ← decInt (getField fs "native")
  let cycle ← decFloat (getField fs "cycle")
  let mincycle ← decFloat (getField fs "mincycle")
  return { Class := cls, Path := path, Activated := activated, Flags := flags,
           Driver := driver, Subtype := subtype, Bps := bps, Parity := parity,
           Stopbits := stopbits, Native := native, Cycle := cycle,
           Mincycle := mincycle }

/-- One element of a `[]DEVICEReport` slice: `null` leaves the zero value. -/
def decodeDEVICEElem : JValue → Except String DEVICEReport
  | .null => .ok { Class := "", Path := "", Activated := "", Flags := 0,
                   Driver := "", Subtype := "", Bps := 0, Parity := "",
                   Stopbits := "", Native := 0, Cycle := 0, Mincycle := 0 }
  | .obj fs => decodeDEVICE fs
  | _ => .error "cannot unmarshal value into DEVICEReport"

/-- Decode a `[]DEVICEReport` struct field. -/
def decDevices : Option JValue → Except String (List DEVICEReport)
  | Option.none => .ok []
  | some .null => .ok []
  | some (.arr xs) => xs.mapM decodeDEVICEElem
  | some _ => .error "cannot unmarshal value into DEVICEReport slice field"

/-- Field-wise decode of a `DEVICESReport` JSON object. -/
def decodeDEVICES (fs : List (String × JValue)) : Except String DEVICESReport := do
  let cls ← decString (getField fs "class")
  let devices ← decDevices (getField fs "devices")
  let remote ← decString (getField fs "remote")
  return { Class := cls, Devices := devices, Remote := remote }

/-- Field-wise decode of a `PPSReport` JSON object. -/
def decodePPS (fs : List (String × JValue)) : Except String PPSReport := do
  let cls ← decString (getField fs "class")
  let device ← decString (getField fs "device")
  let realSec ← decFloat (getField fs "real_sec")
  let realMusec ← decFloat (getField fs "real_musec")
  let clockSec ← decFloat (getField fs "clock_sec")
  let clockMusec ← decFloat (getField fs "clock_musec")
  return { Class := cls, Device := device, RealSec := realSec,
           RealMusec := realMusec, ClockSec := clockSec,
           ClockMusec := clockMusec }

/-- Field-wise decode of a `TOFFReport` JSON object. -/
def decodeTOFF (fs : List (String × JValue)) : Except String TOFFReport := do
  let cls ← decString (getField fs "class")
  let device ← decString (getField fs "device")
  let realSec ← decFloat (getField fs "real_sec")
  let realNSec ← decFloat (getField fs "real_nsec")
  let clockSec ← decFloat (getField fs "clock_sec")
  let clockNSec ← decFloat (getField fs "clock_nsec")
  return { Class := cls, Device := device, RealSec := realSec,
           RealNSec := realNSec, ClockSec := clockSec, ClockNSec := clockNSec }

/-- Field-wise decode of an `ERRORReport` JSON object. -/
def decodeERROR (fs : List (String × JValue)) : Except String ERRORReport := do
  let cls ← decString (getField fs "class")
  let message ← decString (getField fs "message")
  return { Class := cls, Message := message }

/-- The result of returning a typed report pointer through `interface{}`:
each known class wraps a possibly-nil pointer of its own report type.  A Go
interface holding a typed nil pointer is distinct from the untyped `nil`
interface, so `unmarshalReport`'s results are `Option ReportPtr` — `none`
models the untyped `nil` of the default branch. -/
inductive ReportPtr where
  | tpv (r : Option TPVReport)
  | sky (r : Option SKYReport)
  | gst (r : Option GSTReport)
  | att (r : Option ATTReport)
  | version (r : Option VERSIONReport)
  | devices (r : Option DEVICESReport)
  | pps (r : Option PPSReport)
  | toff (r : Option TOFFReport)
  | error (r : Option ERRORReport)

/-- `json.Unmarshal(bytes, &r)` with `r` a pointer to a report struct:
malformed bytes are an error; JSON `null` leaves the pointer nil without
error; an object runs the field-wise decode; any other JSON value is a type
error.  First component is the pointer (`none` = nil), second the error. -/
def unmarshalInto {α : Type} (dec : List (String × JValue) → Except String α) :
    JLine → Option α × Option String
  | Option.none => (none, some "invalid character in JSON input")
  | some .null => (none, none)
  | some (.obj fs) =>
      match dec fs with
      | .ok r => (some r, none)
      | .error e => (none, some e)
  | some _ => (none, some "cannot unmarshal value into report struct")

/-- `unmarshalReport` from gpsd.go: switch on the class string, unmarshal the
bytes into the matching report type and return the typed pointer together
with the unmarshal error; any class without a case falls through to
`return nil, err` with `err` still nil — the untyped nil result
`(none, none)`. -/
def unmarshalReport (cls : String) (bytes : JLine) :
    Option ReportPtr × Option String :=
  match cls with
  | "TPV" =>
      let p := unmarshalInto decodeTPV bytes
      (some (.tpv p.1), p.2)
  | "SKY" =>
      let p := unmarshalInto decodeSKY bytes
      (some (.sky p.1), p.2)
  | "GST" =>
      let p := unmarshalInto decodeGST bytes
      (some (.gst p.1), p.2)
  | "ATT" =>
      let p := unmarshalInto decodeATT bytes
      (some (.att p.1), p.2)
  | "VERSION" =>
      let p := unmarshalInto decodeVERSION bytes
      (some (.version p.1), p.2)
  | "DEVICES" =>
      let p := unmarshalInto decodeDEVICES bytes
      (some (.devices p.1), p.2)
  | "PPS" =>
      let p := unmarshalInto decodePPS bytes
      (some (.pps p.1), p.2)
  | "TOFF" =>
      let p := unmarshalInto decodeTOFF bytes
      (some (.toff p.1), p.2)
  | "ERROR" =>
      let p := unmarshalInto decodeERROR bytes
      (some (.error p.1), p.2)
  | _ => (none, none)

/-- The class strings for which `unmarshalReport` has a switch case. -/
def handledClasses : List String :=
  ["TPV", "SKY", "GST", "ATT", "VERSION", "DEVICES", "PPS", "TOFF", "ERROR"]

/-- `json.Unmarshal(lineBytes, &reportPeek)` into the value-typed
`gpsdReport{Class string}`: malformed bytes or a non-object non-null value is
an error; `null` leaves the zero struct (class `""`); an object reads its
`class` field with string-field semantics. -/
def peekClass : JLine → Except String String
  | Option.none => .error "invalid character in JSON input"
  | some .null => .ok ""
  | some (.obj fs) => decString (getField fs "class")
  | some _ => .error "cannot unmarshal value into gpsdReport"

/-- A registered callback, identified opaquely; invocation of a callback is
recorded as an event in the watch-loop trace. -/
abbrev Filter := ℕ

/-- `Session.filters`: map from class name to the registered callback list;
a missing key reads as the empty list, as a Go nil map entry does. -/
def Registry := String → List Filter

/-- A map with no registrations. -/
def emptyRegistry : Registry := fun _ => []

/-- `AddFilter` from gpsd.go: append the callback to the class's list. -/
def addFilter (reg : Registry) (cls : String) (f : Filter) : Registry :=
  fun c => if c = cls then reg c ++ [f] else reg c

/-- Observable actions of the watch goroutine. -/
inductive Event where
  /-- a call of `unmarshalReport` on a line of the given class -/
  | decodeCall (cls : String)
  /-- invocation of callback `f` for class `cls` with the report value -/
  | deliver (cls : String) (f : Filter) (report : Option ReportPtr)
  /-- the `JSON parsing error:` print for a failed class peek -/
  | decodeErrorMsg
  /-- the `JSON parsing error 2:` print for a failed full unmarshal -/
  | decodeErrorMsg2
  /-- the `Stream reader error` print for a read error other than closed -/
  | streamErrorMsg
  /-- the single `done <- true` completion signal -/
  | done

/-- `deliverReport` from gpsd.go: `for _, f := range s.filters[class]`
invokes each registered callback in list order with the same report value. -/
def deliverReport (reg : Registry) (cls : String) (report : Option ReportPtr) :
    List Event :=
  (reg cls).map (fun f => Event.deliver cls f report)

/-- Outcome of one blocking `reader.ReadString` call. -/
inductive ReadErr where
  | eof
  | closed
  | other (msg : String)

/-- One read from the buffered reader: a full line, or an error. -/
inductive ReadResult where
  | ok (line : JLine)
  | err (e : ReadErr)

/-- `errors.Is(err, net.ErrClosed)` on the modelled read errors. -/
def isClosedErr : ReadErr → Bool
  | .closed => true
  | _ => false

/-- `errors.Is(err, io.EOF)` on the modelled read errors. -/
def isEOFErr : ReadErr → Bool
  | .eof => true
  | _ => false

/-- The events of one iteration of the `watch` loop body (gpsd.go):
on a read error, print unless the error is `net.ErrClosed`; on a line, peek
the class (failure prints), skip when the class has no filters, otherwise
call `unmarshalReport` and either deliver to every filter or print. -/
def watchStepEvents (reg : Registry) : ReadResult → List Event
  | .ok line =>
      match peekClass line with
      | .ok cls =>
          if (reg cls).length = 0 then []
          else
            match unmarshalReport cls line with
            | (report, Option.none) =>
                Event.decodeCall cls :: deliverReport reg cls report
            | (_, some _) => [Event.decodeCall cls, Event.decodeErrorMsg2]
      | .error _ => [Event.decodeErrorMsg]
  | .err e => if isClosedErr e then [] else [Event.streamErrorMsg]

/-- The `break` condition of the `watch` loop: only
`errors.Is(err, io.EOF) || errors.Is(err, net.ErrClosed)` leaves the loop;
a successful read never does, nor does any other read error. -/
def watchStops : ReadResult → Bool
  | .ok _ => false
  | .err e => isEOFErr e || isClosedErr e

/-- The `watch` goroutine run over a (prefix of the) stream of read results:
iterate the loop body; on the break condition emit the single
`done <- true` and stop; an exhausted input models a loop still blocked in
its next read, so no completion is signalled. -/
def watchRun (reg : Registry) : List ReadResult → List Event
  | [] => []
  | r :: rest =>
      watchStepEvents reg r ++
        (if watchStops r then [Event.done] else watchRun reg rest)

/-- Recognizes the completion signal in a trace. -/
def isDone : Event → Bool
  | .done => true
  | _ => false

/-- Number of completion signals in a trace. -/
def countDone (t : List Event) : ℕ := (t.filter isDone).length

/-- `Session` from gpsd.go, for the close-state machine: `socket` is
`none` once the connection has been closed (`s.socket = nil`); the buffered
reader is modelled separately as the stream of `ReadResult`s. -/
structure Session where
  socket : Option Unit
  filters : Registry

/-- `Close` from gpsd.go: a nil socket reports the already-closed error
(with the source's spelling); otherwise the underlying `socket.Close()`
result (`closeResult`, `none` for success) is propagated, and on success the
socket is set to nil. -/
def closeSession (s : Session) (closeResult : Option String) :
    Except String Session :=
  if s.socket = none then .error "gpsd socket is alerady closed"
  else
    match closeResult with
    | some e => .error e
    | Option.none => .ok { s with socket := none }

/-- `fmt.Fprintf` applied to a format string with zero operands, as
`SendCommand` and `Watch` use it (Go `fmt` semantics): ordinary bytes pass
through, `%%` emits one percent sign, any other verb emits
`%!<verb>(MISSING)` since no operand is supplied, and a trailing lone `%`
emits `%!(NOVERB)`. -/
def fprintfNoOperandsChars : List Char → List Char
  | [] => []
  | '%' :: [] => "%!(NOVERB)".data
  | '%' :: '%' :: rest => '%' :: fprintfNoOperandsChars rest
  | '%' :: c :: rest =>
      "%!".data ++ [c] ++ "(MISSING)".data ++ fprintfNoOperandsChars rest
  | c :: rest => c :: fprintfNoOperandsChars rest

/-- String version of the zero-operand `fmt.Fprintf` byte output. -/
def fprintfNoOperands (format : String) : String :=
  String.mk (fprintfNoOperandsChars format.data)

/-- `SendCommand` from gpsd.go: the bytes written to the socket are
`fmt.Fprintf(s.socket, "?"+command+";")` — the concatenation is used as the
format string. -/
def sendCommandBytes (command : String) : String :=
  fprintfNoOperands ("?" ++ command ++ ";")

/-! ### Sample wire inputs -/

/-- JSON object fields of a well-formed `DEVICE` message. -/
def deviceFields : List (String × JValue) :=
  [("class", .str "DEVICE"), ("path", .str "/dev/ttyUSB0"),
   ("driver", .str "NMEA0183"), ("bps", .num 9600)]

/-- A well-formed line of class `DEVICE`. -/
def deviceLine : JLine := some (.obj deviceFields)

/-- A well-formed line of class `TPV` (mode 3, lat 45). -/
def tpvLineA : JLine :=
  some (.obj [("class", .str "TPV"), ("mode", .num 3), ("lat", .num 45)])

/-- The report `tpvLineA` decodes to. -/
def tpvRecA : TPVReport :=
  { Class := "TPV", Tag := "", Device := "", Mode := 3, Time := "", Ept := 0,
    Lat := 45, Lon := 0, Alt := 0, Epx := 0, Epy := 0, Epv := 0, Track := 0,
    Speed := 0, Climb := 0, Epd := 0, Eps := 0, Epc := 0 }

/-- A second well-formed line of class `TPV` (mode 2, lon 16). -/
def tpvLineB : JLine :=
  some (.obj [("class", .str "TPV"), ("mode", .num 2), ("lon", .num 16)])

/-- The report `tpvLineB` decodes to. -/
def tpvRecB : TPVReport :=
  { Class := "TPV", Tag := "", Device := "", Mode := 2, Time := "", Ept := 0,
    Lat := 0, Lon := 16, Alt := 0, Epx := 0, Epy := 0, Epv := 0, Track := 0,
    Speed := 0, Climb := 0, Epd := 0, Eps := 0, Epc := 0 }

/-! ### Helper lemmas -/

theorem unmarshalReport_not_handled (cls : String) (h : cls ∉ handledClasses)
    (bytes : JLine) : unmarshalReport cls bytes = (none, none) := by
  unfold unmarshalReport
  split
  all_goals first
    | rfl
    | exact absurd (by decide) h

theorem countDone_nil : countDone [] = 0 := rfl

theorem countDone_cons (e : Event) (t : List Event) :
    countDone (e :: t) = (if isDone e then 1 else 0) + countDone t := by
  by_cases h : isDone e <;> simp [countDone, List.filter_cons, h, Nat.add_comm]

theorem countDone_append (s t : List Event) :
    countDone (s ++ t) = countDone s + countDone t := by
  simp [countDone, List.filter_append]

theorem countDone_deliverReport (reg : Registry) (cls : String)
    (report : Option ReportPtr) : countDone (deliverReport reg cls report) = 0 := by
  unfold deliverReport
  generalize reg cls = l
  induction l with
  | nil => rfl
  | cons f t ih => simpa [countDone_cons, isDone] using ih

theorem countDone_watchStepEvents (reg : Registry) (r : ReadResult) :
    countDone (watchStepEvents reg r) = 0 := by
  cases r with
  | ok line =>
      cases hp : peekClass line with
      | ok cls =>
          simp only [watchStepEvents, hp]
          split
          · rfl
          · split
            · simp [countDone_cons, isDone, countDone_deliverReport]
            · simp [countDone_cons, isDone, countDone_nil]
      | error e => simp [watchStepEvents, hp, countDone, isDone]
  | err e => cases e <;> rfl

theorem countDone_watchRun (reg : Registry) (input : List ReadResult) :
    countDone (watchRun reg input) = if input.any watchStops then 1 else 0 := by
  induction input with
  | nil => rfl
  | cons r rest ih =>
      simp only [watchRun, List.any_cons]
      rw [countDone_append]
      by_cases hs : watchStops r = true
      · simp [hs, countDone_watchStepEvents, countDone_cons, isDone, countDone_nil]
      · simp [hs, countDone_watchStepEvents, ih]

theorem foldl_addFilter (fs : List Filter) (reg : Registry) (cls : String) :
    (fs.foldl (fun r f => addFilter r cls f) reg) cls = reg cls ++ fs := by
  induction fs generalizing reg with
  | nil => simp
  | cons f t ih =>
      simp only [List.foldl_cons]
      rw [ih]
      simp [addFilter]

/-! ### Claim theorems -/

/-- C1: the claim says decoding well-formed bytes of every class in
{VERSION, TPV, SKY, GST, ATT, PPS, DEVICES, DEVICE, ERROR} returns a typed
report of the corresponding variant; the code's `unmarshalReport` has no
`"DEVICE"` case, so on a well-formed `DEVICE` line (its fields decode
without error under the `DEVICEReport` schema) it falls through to the
no-decoder result `(nil, nil)` instead of a typed `DEVICEReport`. -/
theorem device_line_hits_no_decoder_fallthrough :
    (decodeDEVICE deviceFields).toOption.isSome = true ∧
    unmarshalReport "DEVICE" deviceLine = (none, none) :=
  ⟨rfl, rfl⟩

/-- C2: for a discriminator without a decoder case, `unmarshalReport`
returns the untyped-nil, nil-error pair `(none, none)`; a structural parse
failure of a handled class always carries a non-nil error, so the two
outcomes never coincide and a caller can tell them apart. -/
theorem unknown_class_distinct_from_parse_failure
    (cls : String) (bytes : JLine) (cls2 : String) (bytes2 : JLine) (e : String)
    (h : cls ∉ handledClasses) (h2 : cls2 ∈ handledClasses)
    (hfail : (unmarshalReport cls2 bytes2).2 = some e) :
    unmarshalReport cls bytes = (none, none) ∧
    unmarshalReport cls2 bytes2 ≠ unmarshalReport cls bytes := by
  have hu := unmarshalReport_not_handled cls h bytes
  refine ⟨hu, fun hEq => ?_⟩
  rw [hEq, hu] at hfail
  simp at hfail

/-- C2 witness: class `"XYZ"` on unreadable bytes gives `(none, none)`;
class `"TPV"` on a JSON string is a structural parse failure, and the two
results differ. -/
theorem unknown_class_distinct_from_parse_failure_witness :
    unmarshalReport "XYZ" none = (none, none) ∧
    unmarshalReport "TPV" (some (.str "x")) ≠ unmarshalReport "XYZ" none :=
  unknown_class_distinct_from_parse_failure "XYZ" none "TPV" (some (.str "x"))
    "cannot unmarshal value into report struct" (by decide) (by decide) rfl

/-- C3 counterexample: the claim says any read failure other than
end-of-stream/closed stops the loop with no further iterations; in the code
such a failure only prints and the loop retries — here a later TPV line is
still decoded and delivered after the failing read, and no completion
signal fires. -/
theorem read_error_then_loop_keeps_iterating :
    watchRun (addFilter emptyRegistry "TPV" 0)
        [.err (.other "read timeout"), .ok tpvLineA] =
      [Event.streamErrorMsg, Event.decodeCall "TPV",
       Event.deliver "TPV" 0 (some (.tpv (some tpvRecA)))] ∧
    countDone (watchRun (addFilter emptyRegistry "TPV" 0)
        [.err (.other "read timeout"), .ok tpvLineA]) = 0 :=
  ⟨rfl, rfl⟩

/-- C3 amended: a read failure other than end-of-stream or closed is
reported as a stream error but the loop retries — it continues with the
remaining reads; the loop transitions to Stopped only on end-of-stream
(reported, then completion) or on the closed condition (silent
completion). -/
theorem read_error_reported_and_loop_retries (s : String) (reg : Registry)
    (rest : List ReadResult) :
    watchRun reg (.err (.other s) :: rest) =
      Event.streamErrorMsg :: watchRun reg rest ∧
    watchRun reg (.err .eof :: rest) = [Event.streamErrorMsg, Event.done] ∧
    watchRun reg (.err .closed :: rest) = [Event.done] :=
  ⟨rfl, rfl, rfl⟩

/-- C4: the claim says `SendCommand(text)` writes exactly `"?"+text+";"`
even when `text` contains `'%'`; the code passes the concatenation to
`fmt.Fprintf` as its format string with zero operands, so a `%d` in the
command is rewritten to `%!d(MISSING)` instead of being written
literally. -/
theorem sendCommand_percent_not_written_literally :
    sendCommandBytes "PING%d" = "?PING%!d(MISSING);" ∧
    sendCommandBytes "PING%d" ≠ "?" ++ "PING%d" ++ ";" :=
  ⟨rfl, by decide⟩

/-- C5: a line whose class-only peek fails produces one decode-error report
and the loop continues: with a TPV subscriber, a well-formed TPV line
before and one after the malformed line are both decoded and delivered, and
no completion signal fires (the loop does not stop). -/
theorem malformed_line_reported_and_loop_continues
    (f : Filter) (g1 g2 bad : JLine) (e : String) (r1 r2 : Option ReportPtr)
    (hb : peekClass bad = Except.error e)
    (h1 : peekClass g1 = Except.ok "TPV")
    (h2 : peekClass g2 = Except.ok "TPV")
    (hu1 : unmarshalReport "TPV" g1 = (r1, none))
    (hu2 : unmarshalReport "TPV" g2 = (r2, none)) :
    watchRun (addFilter emptyRegistry "TPV" f) [.ok g1, .ok bad, .ok g2] =
      [Event.decodeCall "TPV", Event.deliver "TPV" f r1,
       Event.decodeErrorMsg,
       Event.decodeCall "TPV", Event.deliver "TPV" f r2] := by
  simp [watchRun, watchStepEvents, watchStops, hb, h1, h2, hu1, hu2,
    deliverReport, addFilter, emptyRegistry]

/-- C5 witness: concrete TPV lines around an unparseable line. -/
theorem malformed_line_reported_and_loop_continues_witness :
    watchRun (addFilter emptyRegistry "TPV" 0) [.ok tpvLineA, .ok none, .ok tpvLineB] =
      [Event.decodeCall "TPV", Event.deliver "TPV" 0 (some (.tpv (some tpvRecA))),
       Event.decodeErrorMsg,
       Event.decodeCall "TPV", Event.deliver "TPV" 0 (some (.tpv (some tpvRecB)))] :=
  malformed_line_reported_and_loop_continues 0 tpvLineA tpvLineB none
    "invalid character in JSON input"
    (some (.tpv (some tpvRecA))) (some (.tpv (some tpvRecB)))
    rfl rfl rfl rfl rfl

/-- C6: a successfully classified line whose class has no registered
filters is discarded: the iteration produces no events at all — in
particular no `decodeCall` (the events that mark exactly the
`unmarshalReport` invocations) and no callback invocation — and the loop
does not stop; the lookup is the plain map read, safe on an empty
registry (see the witness). -/
theorem no_subscriber_skips_decode
    (reg : Registry) (line : JLine) (cls : String)
    (h1 : peekClass line = Except.ok cls) (h2 : reg cls = []) :
    watchStepEvents reg (.ok line) = [] ∧ watchStops (.ok line) = false := by
  refine ⟨?_, rfl⟩
  simp [watchStepEvents, h1, h2]

/-- C6 witness: a TPV line against the empty registry. -/
theorem no_subscriber_skips_decode_witness :
    watchStepEvents emptyRegistry (.ok tpvLineA) = [] ∧
    watchStops (.ok tpvLineA) = false :=
  no_subscriber_skips_decode emptyRegistry tpvLineA "TPV" rfl rfl

/-- C7: after registering the callbacks `fs` for a class (in that order,
via `addFilter`) on a registry with no prior subscribers for it,
`deliverReport` invokes exactly the callbacks of `fs`, once each, in
registration order, passing every one the same decoded report value. -/
theorem dispatch_in_registration_order
    (reg0 : Registry) (cls : String) (fs : List Filter)
    (report : Option ReportPtr) (h : reg0 cls = []) :
    deliverReport (fs.foldl (fun reg f => addFilter reg cls f) reg0) cls report =
      fs.map (fun f => Event.deliver cls f report) := by
  unfold deliverReport
  rw [foldl_addFilter, h]
  simp

/-- C7 witness: three callbacks registered for `SKY` fire in order with the
same report value. -/
theorem dispatch_in_registration_order_witness :
    deliverReport ([4, 5, 6].foldl (fun reg f => addFilter reg "SKY" f)
        emptyRegistry) "SKY" none =
      [4, 5, 6].map (fun f => Event.deliver "SKY" f none) :=
  dispatch_in_registration_order emptyRegistry "SKY" [4, 5, 6] none rfl

/-- C8: the completion signal is sent exactly once when the run reaches a
stopping read (end-of-stream or closed) and never otherwise; and a closed
condition hit while blocked on read yields exactly the completion signal,
with no stream-error report. -/
theorem done_fires_exactly_once_on_stop (reg : Registry)
    (input rest : List ReadResult) :
    countDone (watchRun reg input) = (if input.any watchStops then 1 else 0) ∧
    watchRun reg (.err .closed :: rest) = [Event.done] :=
  ⟨countDone_watchRun reg input, rfl⟩

/-- C9: closing an open session with a succeeding underlying close returns
no error and nils the socket; closing again reports the explicit
already-closed error (whatever the underlying close would do). -/
theorem close_then_close_again_errors
    (s : Session) (closeResult2 : Option String) (h : s.socket.isSome = true) :
    closeSession s none = Except.ok { s with socket := none } ∧
    closeSession { s with socket := none } closeResult2 =
      Except.error "gpsd socket is alerady closed" := by
  obtain ⟨sock, filt⟩ := s
  cases sock with
  | none => simp at h
  | some u => exact ⟨by simp [closeSession], by simp [closeSession]⟩

/-- C9 witness: a concrete open session. -/
theorem close_then_close_again_errors_witness :
    closeSession ⟨some (), emptyRegistry⟩ none =
      Except.ok ⟨none, emptyRegistry⟩ ∧
    closeSession ⟨none, emptyRegistry⟩ none =
      Except.error "gpsd socket is alerady closed" :=
  close_then_close_again_errors ⟨some (), emptyRegistry⟩ none rfl

/-- C10: a line classified to a class outside `unmarshalReport`'s handled
set but with registered filters is not skipped: `unmarshalReport` returns
untyped nil with nil error, the nil error counts as decode success, and
every subscriber's callback is invoked with the nil report value. -/
theorem unknown_class_with_subscribers_dispatches_nil
    (reg : Registry) (line : JLine) (cls : String)
    (h1 : peekClass line = Except.ok cls) (h2 : cls ∉ handledClasses)
    (h3 : reg cls ≠ []) :
    watchStepEvents reg (.ok line) =
      Event.decodeCall cls :: (reg cls).map (fun f => Event.deliver cls f none) := by
  have hu := unmarshalReport_not_handled cls h2 line
  simp [watchStepEvents, h1, hu, deliverReport, h3]

/-- C10 witness: a subscriber registered for class `DEVICE` receives the
nil report produced by the missing decoder case. -/
theorem unknown_class_with_subscribers_dispatches_nil_witness :
    watchStepEvents (addFilter emptyRegistry "DEVICE" 2) (.ok deviceLine) =
      Event.decodeCall "DEVICE" ::
        ((addFilter emptyRegistry "DEVICE" 2) "DEVICE").map
          (fun f => Event.deliver "DEVICE" f none) :=
  unknown_class_with_subscribers_dispatches_nil
    (addFilter emptyRegistry "DEVICE" 2) deviceLine "DEVICE"
    rfl (by decide) (by decide)

end GoGpsd
